import Mathlib

/-!
Verification development for the session-scoped audio-transcription core
(`src/main.py`).  The Python classes are shallowly embedded as Lean
structures with pure state-passing methods: a `bytes` value becomes a
`List Nat`, a Python `list` becomes a Lean `List`, and a mutating method
becomes a function returning the updated state.  The `async` markers in the
source carry no concurrency inside a single call chain, so each `await`ed
call is embedded as an ordinary function call.
-/

/-- Modelled from the spec: the module `src.placeholders` (providing
`some_bytes`, `some_int`, `some_logic`, `some_string`) is not under `src/`;
the design notes describe its members as constant placeholders (for example,
identifier generation in the skeleton returns a constant).  We therefore
parameterise the embedding over the constant values, so every theorem holds
for whatever constants the missing module defines. `some_logic` is a
placeholder coroutine with no observable effect and is embedded as a no-op
where it is called. -/
structure Placeholders where
  some_bytes : List Nat
  some_int : Int
  some_string : String
deriving DecidableEq

/-- `AudioEntity`: wraps the bytes of one audio chunk. -/
structure AudioEntity where
  audio_data : List Nat
deriving DecidableEq

/-- `TranscriptionEntity`: one recognized span with start/end times (ms) and
text.  The Python attribute `end` is a Lean keyword and is embedded as
`end_`. -/
structure TranscriptionEntity where
  start : Int
  end_ : Int
  text : String
deriving DecidableEq

/-- `IdentifierEntity`: wraps a session identifier string. -/
structure IdentifierEntity where
  id : String
deriving DecidableEq

/-- `IdentifierEntity._create_uuid`: the source body is
`return some_string` — the constant placeholder. -/
def IdentifierEntity._create_uuid (P : Placeholders) : String :=
  P.some_string

/-- `IdentifierEntity.__init__`: `self._id = self._create_uuid()`. -/
def IdentifierEntity.init (P : Placeholders) : IdentifierEntity :=
  { id := IdentifierEntity._create_uuid P }

/-- `AudioQueueService`: holds the byte buffer `self._audio_queue`. -/
structure AudioQueueService where
  audio_queue : List Nat
deriving DecidableEq

/-- `AudioQueueService.__init__`: `self._audio_queue = some_bytes`. -/
def AudioQueueService.init (P : Placeholders) : AudioQueueService :=
  { audio_queue := P.some_bytes }

/-- `AudioQueueService.dequeue`: the source body is exactly
`return AudioEntity(some_bytes)` — it does not touch `self._audio_queue`
and ignores `duration_in_milliseconds`, so the embedding returns the
placeholder entity and the unchanged state. -/
def AudioQueueService.dequeue (q : AudioQueueService) (P : Placeholders)
    (duration_in_milliseconds : Int) : AudioEntity × AudioQueueService :=
  (⟨P.some_bytes⟩, q)

/-- `AudioQueueService.enqueue`: `self._audio_queue += audio.audio_data`. -/
def AudioQueueService.enqueue (q : AudioQueueService) (audio : AudioEntity) :
    AudioQueueService :=
  { audio_queue := q.audio_queue ++ audio.audio_data }

/-- `AudioQueueService.not_empty`: `return bool(self._audio_queue)`. -/
def AudioQueueService.not_empty (q : AudioQueueService) : Bool :=
  !q.audio_queue.isEmpty

/-- `TranscriptionQueueService`: holds `self._transcription_queue`. -/
structure TranscriptionQueueService where
  transcription_queue : List TranscriptionEntity
deriving DecidableEq

/-- `TranscriptionQueueService.__init__`: `self._transcription_queue = []`. -/
def TranscriptionQueueService.init : TranscriptionQueueService :=
  { transcription_queue := [] }

/-- The `while self._transcription_queue:` loop inside
`TranscriptionQueueService.dequeue`: each pass executes
`memory.append(self._transcription_queue.pop())`, and Python `pop()` with no
argument removes the LAST element.  Returns the final `memory` and the final
queue contents. -/
def TranscriptionQueueService.dequeueLoop
    (memory : List TranscriptionEntity) (queue : List TranscriptionEntity) :
    List TranscriptionEntity × List TranscriptionEntity :=
  if h : queue = [] then (memory, queue)
  else TranscriptionQueueService.dequeueLoop
    (memory ++ [queue.getLast h]) queue.dropLast
termination_by queue.length
decreasing_by
  simp only [List.length_dropLast]
  exact Nat.sub_lt (List.length_pos.mpr h) Nat.one_pos

/-- `TranscriptionQueueService.dequeue`: starts with `memory = []`, runs the
pop loop, and returns `memory`; the state afterwards is the emptied queue. -/
def TranscriptionQueueService.dequeue (q : TranscriptionQueueService) :
    List TranscriptionEntity × TranscriptionQueueService :=
  let r := TranscriptionQueueService.dequeueLoop [] q.transcription_queue
  (r.1, { transcription_queue := r.2 })

/-- `TranscriptionQueueService.enqueue`:
`self._transcription_queue += transcriptions`. -/
def TranscriptionQueueService.enqueue (q : TranscriptionQueueService)
    (transcriptions : List TranscriptionEntity) : TranscriptionQueueService :=
  { transcription_queue := q.transcription_queue ++ transcriptions }

/-- `AudioRecognitionService.transcribe`: the source body is
`return some_string`. -/
def AudioRecognitionService.transcribe (P : Placeholders)
    (audio : AudioEntity) : String :=
  P.some_string

/-- `SessionEntity`: aggregates the audio queue and the transcription queue
(the recognition service is stateless, so it is not part of the state). -/
structure SessionEntity where
  audio_queue : AudioQueueService
  transcription_queue : TranscriptionQueueService
deriving DecidableEq

/-- `SessionEntity.__init__`: fresh `AudioQueueService()` and
`TranscriptionQueueService()`. -/
def SessionEntity.init (P : Placeholders) : SessionEntity :=
  { audio_queue := AudioQueueService.init P
    transcription_queue := TranscriptionQueueService.init }

/-- One iteration of the loop body of `SessionEntity.process`:
`audio = await self._audio_queue.dequeue(some_int)`;
`transcription = TranscriptionEntity(some_int, some_int, await
self._audio_recognition.transcribe(audio))`;
`await self._transcription_queue.enqueue([transcription])`. -/
def SessionEntity.processIter (s : SessionEntity) (P : Placeholders) :
    SessionEntity :=
  let r := s.audio_queue.dequeue P P.some_int
  let transcription : TranscriptionEntity :=
    { start := P.some_int
      end_ := P.some_int
      text := AudioRecognitionService.transcribe P r.1 }
  { audio_queue := r.2
    transcription_queue := s.transcription_queue.enqueue [transcription] }

/-- `SessionEntity.process`, embedded with explicit fuel: `some n` means the
`while` loop exited (guard false) within the given number of iterations and
left the session in that state; `none` means the loop was still running when
the fuel ran out.  The guard is embedded as the value of
`self._audio_queue.not_empty()` (note the source calls it without `await`,
which in Python makes the condition an always-truthy coroutine object; the
embedding charitably uses the awaited boolean value). -/
def SessionEntity.process (P : Placeholders) :
    Nat → SessionEntity → Option SessionEntity
  | 0, _ => none
  | n + 1, s =>
    if s.audio_queue.not_empty then
      SessionEntity.process P n (s.processIter P)
    else
      some s

/-- The session state after `n` executions of the loop body of
`SessionEntity.process` (used to inspect the transcriptions that the loop
accumulates while it runs). -/
def SessionEntity.processSteps (P : Placeholders) :
    Nat → SessionEntity → SessionEntity
  | 0, s => s
  | n + 1, s => SessionEntity.processSteps P n (s.processIter P)

/-- `SessionRepository.create`: the source body is `await some_logic()` —
the placeholder has no observable effect, and the repository object holds no
state, so the embedding is a no-op. -/
def SessionRepository.create (P : Placeholders)
    (identifier : IdentifierEntity) : Unit :=
  ()

/-- `SessionRepository.read`: the source body is exactly
`return SessionEntity()` — a brand-new session regardless of the
identifier; no lookup and no not-found signalling exists in the code. -/
def SessionRepository.read (P : Placeholders)
    (identifier : IdentifierEntity) : SessionEntity :=
  SessionEntity.init P

/-- `CreateSessionUseCase.command`: builds `IdentifierEntity()`, calls
`SessionRepository().create(identifier)` (a no-op), and returns the
identifier.  The constructor reads no per-invocation state (no randomness,
no counter) in the skeleton, so the embedding is constant in the invocation
index. -/
def CreateSessionUseCase.command (P : Placeholders) (invocation : Nat) :
    IdentifierEntity :=
  IdentifierEntity.init P

/-- `AddAudioToSessionUseCase.command`: reads the session, enqueues the
audio, then runs `session.process()` (fuel-bounded as above). -/
def AddAudioToSessionUseCase.command (P : Placeholders) (fuel : Nat)
    (identifier : IdentifierEntity) (audio : AudioEntity) :
    Option SessionEntity :=
  let session := SessionRepository.read P identifier
  let session' : SessionEntity :=
    { session with audio_queue := session.audio_queue.enqueue audio }
  SessionEntity.process P fuel session'

/-- `GetTranscriptionsFromSessionUseCase.command`: reads the session and
returns `session.transcription_queue.dequeue()`. -/
def GetTranscriptionsFromSessionUseCase.command (P : Placeholders)
    (identifier : IdentifierEntity) : List TranscriptionEntity :=
  ((SessionRepository.read P identifier).transcription_queue.dequeue).1

/-- Closed form of the pop loop: it moves the whole queue, last element
first, onto the end of `memory`, leaving the queue empty. -/
theorem TranscriptionQueueService.dequeueLoop_spec
    (queue memory : List TranscriptionEntity) :
    TranscriptionQueueService.dequeueLoop memory queue =
      (memory ++ queue.reverse, []) := by
  induction queue using List.reverseRecOn generalizing memory with
  | nil => simp [TranscriptionQueueService.dequeueLoop]
  | append_singleton l a ih =>
    rw [TranscriptionQueueService.dequeueLoop]
    simp [ih]

/-- `dequeue` returns the queued segments in reverse arrival order and
leaves the queue empty. -/
theorem TranscriptionQueueService.dequeue_eq_reverse
    (q : TranscriptionQueueService) :
    q.dequeue = (q.transcription_queue.reverse, ⟨[]⟩) := by
  simp [TranscriptionQueueService.dequeue,
    TranscriptionQueueService.dequeueLoop_spec]

/-- Applying one loop-body iteration does not change the audio queue
(because `AudioQueueService.dequeue` never mutates the buffer). -/
theorem SessionEntity.processIter_audio_queue (s : SessionEntity)
    (P : Placeholders) : (s.processIter P).audio_queue = s.audio_queue :=
  rfl

/-- C1: the claim says `TranscriptionQueueService.dequeue` returns the
queued segments in FIFO order (oldest first).  The code pops from the tail:
enqueue segment A then segment B and dequeue returns [B, A], the reverse of
arrival order (LIFO), contradicting both the claim and the method docstring
(delete from the beginning).  This theorem evaluates the code at that
failing input. -/
theorem TranscriptionQueueService.dequeue_lifo_at_two_segments :
    (TranscriptionQueueService.init.enqueue
        [⟨0, 1, "a"⟩, ⟨1, 2, "b"⟩]).dequeue
      = ([⟨1, 2, "b"⟩, ⟨0, 1, "a"⟩], ⟨[]⟩) ∧
    ([⟨1, 2, "b"⟩, ⟨0, 1, "a"⟩] : List TranscriptionEntity)
      ≠ [⟨0, 1, "a"⟩, ⟨1, 2, "b"⟩] := by
  refine ⟨?_, by decide⟩
  rw [TranscriptionQueueService.dequeue_eq_reverse]
  rfl

/-- C2: `TranscriptionQueueService.dequeue` on a freshly constructed queue
returns the empty list, and for every queue state, a second dequeue
performed immediately after a dequeue (no intervening enqueue) returns the
empty list. -/
theorem TranscriptionQueueService.dequeue_empty_and_idempotent :
    (TranscriptionQueueService.init.dequeue).1 = [] ∧
    ∀ q : TranscriptionQueueService, (((q.dequeue).2).dequeue).1 = [] := by
  constructor
  · rw [TranscriptionQueueService.dequeue_eq_reverse]
    rfl
  · intro q
    rw [TranscriptionQueueService.dequeue_eq_reverse,
      TranscriptionQueueService.dequeue_eq_reverse]
    rfl

/-- C3: the claim says `AudioQueueService.dequeue` on a non-empty buffer
removes and returns bytes from the head, leaving the suffix buffered.  The
code removes nothing — for every state and every requested duration the
buffer is returned unchanged and the result is the placeholder constant
`some_bytes`, not bytes taken from the buffer.  In particular on the
non-empty buffer [1, 2, 3] nothing is removed. -/
theorem AudioQueueService.dequeue_removes_nothing (P : Placeholders)
    (q : AudioQueueService) (d : Int) :
    (q.dequeue P d).2 = q ∧ (q.dequeue P d).1 = ⟨P.some_bytes⟩ ∧
    ((AudioQueueService.mk [1, 2, 3]).dequeue P d).2.audio_queue
      = [1, 2, 3] :=
  ⟨rfl, rfl, rfl⟩

/-- C4: `AudioQueueService.enqueue` appends the audio bytes at the tail:
the resulting buffer is the old buffer concatenated with the appended
bytes, so previously buffered bytes are neither reordered nor dropped, and
the operation is total (never fails). -/
theorem AudioQueueService.enqueue_appends_tail (q : AudioQueueService)
    (audio : AudioEntity) :
    (q.enqueue audio).audio_queue = q.audio_queue ++ audio.audio_data :=
  rfl

/-- C5: the claim says `SessionEntity.process` terminates when the audio
buffer is empty at the start of an iteration.  In the code the loop can
never exit from a non-empty buffer: the loop body never removes bytes
(`AudioQueueService.dequeue` leaves the buffer unchanged), so the guard
stays true and the loop runs forever — `process` returns `none` (still
looping) for every amount of fuel, from every state whose audio buffer is
non-empty.  (In the actual Python the situation is worse still: the guard
`self._audio_queue.not_empty()` is not awaited, so the condition is an
always-truthy coroutine object and the loop cannot exit even on an empty
buffer.) -/
theorem SessionEntity.process_nonempty_never_terminates (P : Placeholders)
    (n : Nat) (b : Nat) (bs : List Nat) (tq : TranscriptionQueueService) :
    SessionEntity.process P n ⟨⟨b :: bs⟩, tq⟩ = none := by
  induction n generalizing tq with
  | zero => rfl
  | succ n ih =>
    simp only [SessionEntity.process, AudioQueueService.not_empty,
      List.isEmpty_cons, Bool.not_false, if_true]
    exact ih _

/-- C6: the claim says distinct create-session invocations return distinct
identifiers.  `IdentifierEntity._create_uuid` returns the constant
placeholder `some_string`, so every invocation of
`CreateSessionUseCase.command` yields the same identifier: any two
invocations collide. -/
theorem CreateSessionUseCase.command_constant_identifier (P : Placeholders)
    (i j : Nat) :
    (CreateSessionUseCase.command P i).id
      = (CreateSessionUseCase.command P j).id ∧
    (CreateSessionUseCase.command P i).id = P.some_string :=
  ⟨rfl, rfl⟩

/-- C7: the claim says each use-case operation signals session-not-found
for an identifier unknown to the registry.  `SessionRepository.read` never
signals anything: for every identifier (including one never created) it
constructs and returns a brand-new `SessionEntity`, and the
get-transcriptions use case succeeds, returning the empty list, instead of
erroring. -/
theorem SessionRepository.read_always_fresh_session (P : Placeholders)
    (identifier : IdentifierEntity) :
    SessionRepository.read P identifier = SessionEntity.init P ∧
    GetTranscriptionsFromSessionUseCase.command P ⟨"nonexistent"⟩ = [] := by
  refine ⟨rfl, ?_⟩
  simp [GetTranscriptionsFromSessionUseCase.command,
    TranscriptionQueueService.dequeue_eq_reverse, SessionRepository.read,
    SessionEntity.init, TranscriptionQueueService.init]

/-- C8: the claim says segment timestamps equal the cumulative audio-time
offset consumed so far, so they increase across a session.  The code passes
the constant placeholder `some_int` as both `start` and `end` of every
segment: after `n` iterations of the processing loop the transcription
queue has grown by `n` copies of the one constant segment, so no timestamp
ever advances with consumed audio. -/
theorem SessionEntity.processSteps_constant_timestamps (P : Placeholders)
    (n : Nat) (s : SessionEntity) :
    (SessionEntity.processSteps P n s).transcription_queue.transcription_queue
      = s.transcription_queue.transcription_queue
        ++ List.replicate n ⟨P.some_int, P.some_int, P.some_string⟩ := by
  induction n generalizing s with
  | zero => simp [SessionEntity.processSteps]
  | succ n ih =>
    rw [SessionEntity.processSteps, ih]
    simp [SessionEntity.processIter, TranscriptionQueueService.enqueue,
      AudioRecognitionService.transcribe, List.replicate_succ]

/-- C10: `GetTranscriptionsFromSessionUseCase.command` returns the empty
list for every identifier: `SessionRepository.read` always constructs a
brand-new `SessionEntity` with a freshly empty transcription queue, so no
previously produced transcription is ever observable. -/
theorem GetTranscriptionsFromSessionUseCase.command_always_empty
    (P : Placeholders) (identifier : IdentifierEntity) :
    GetTranscriptionsFromSessionUseCase.command P identifier = [] := by
  simp [GetTranscriptionsFromSessionUseCase.command,
    TranscriptionQueueService.dequeue_eq_reverse, SessionRepository.read,
    SessionEntity.init, TranscriptionQueueService.init]
